import Mathlib

/-
Verification of the chatty-bot relay service (src/api/index.py).

The service is a minimal FastAPI relay: a POST endpoint validates a
ChatRequest body, opens a streaming call to the upstream Gemini model and
re-emits each produced fragment as a server-sent event, terminated by a
done or error event.  We embed the generator `stream_gemini_response`,
the request model `ChatRequest`, the two registered routes and the health
handler `read_root`, together with a faithful model of Python's
`json.dumps` (default options: ensure_ascii=True, separators ": " and ", ")
restricted to the three payload shapes the code serialises.

The upstream stream is modelled by the observable behaviour the generator
consumes: the finite list of fragments it yields before it either
completes normally or raises an exception (identified by its str()).
-/

set_option linter.unusedVariables false

namespace ChattyBot

/-- Lowercase hexadecimal digit, as produced by CPython's "\u%04x" formatting
of escaped code units in json.dumps. -/
def hexDigit (n : Nat) : Char :=
  if n < 10 then Char.ofNat (48 + n) else Char.ofNat (87 + n)

/-- Four lowercase hexadecimal digits of a 16-bit code unit ("\u%04x"). -/
def hex4 (n : Nat) : List Char :=
  [hexDigit (n / 4096 % 16), hexDigit (n / 256 % 16), hexDigit (n / 16 % 16), hexDigit (n % 16)]

/-- Escape of a single character performed by CPython's
json.encoder.py_encode_basestring_ascii (the default ensure_ascii=True path
of json.dumps): backslash, double quote and the control characters
\b \f \n \r \t get two-character escapes, other characters below 0x20 and
all characters above 0x7e get \uXXXX escapes (a surrogate pair beyond the
basic multilingual plane), and printable ASCII is passed through. -/
def escapeChar (c : Char) : List Char :=
  if c = '\\' then ['\\', '\\']
  else if c = '"' then ['\\', '"']
  else if c.toNat = 8 then ['\\', 'b']
  else if c.toNat = 12 then ['\\', 'f']
  else if c = '\n' then ['\\', 'n']
  else if c.toNat = 13 then ['\\', 'r']
  else if c = '\t' then ['\\', 't']
  else if c.toNat < 32 then '\\' :: 'u' :: hex4 c.toNat
  else if c.toNat < 127 then [c]
  else if c.toNat < 65536 then '\\' :: 'u' :: hex4 c.toNat
  else
    ('\\' :: 'u' :: hex4 (55296 + (c.toNat - 65536) / 1024))
      ++ ('\\' :: 'u' :: hex4 (56320 + (c.toNat - 65536) % 1024))

/-- Character-list escape: concatenation of the per-character escapes. -/
def escapeList : List Char → List Char
  | [] => []
  | c :: cs => escapeChar c ++ escapeList cs

/-- Model of json.dumps applied to a Python str: the escaped characters
wrapped in double quotes. -/
def pyJsonString (s : String) : String :=
  String.mk ('"' :: (escapeList s.data ++ ['"']))

/-- An SSE payload of the relay: the JSON object yielded in one frame of
stream_gemini_response.  The code only ever serialises the three dict
shapes below. -/
inductive Event where
  | text (s : String)
  | done
  | error (s : String)
  deriving DecidableEq, Repr

/-- Model of json.dumps on the three payload dicts the code builds, with the
default separators, which put one space after each colon. -/
def jsonDumps : Event → String
  | Event.text s => "\x7b\"text\": " ++ pyJsonString s ++ "\x7d"
  | Event.done => "\x7b\"done\": true\x7d"
  | Event.error s => "\x7b\"error\": " ++ pyJsonString s ++ "\x7d"

/-- One yielded SSE frame: the f-string f"data: \x7bjson.dumps(obj)\x7d\n\n". -/
def sseFrame (e : Event) : String :=
  "data: " ++ jsonDumps e ++ "\n\n"

/-- Observer: whether a payload is a text event. -/
def isTextEvent : Event → Bool
  | Event.text _ => true
  | _ => false

/-- Observer: the string carried by a text event, none for the two
terminal payload shapes. -/
def eventText : Event → Option String
  | Event.text s => some s
  | _ => none

/-- One chunk of the upstream response stream; the code only reads its
.text attribute. -/
structure Fragment where
  text : String
  deriving DecidableEq, Repr

/-- How the upstream iteration ends: either the stream is exhausted
normally, or some step of the upstream call raises an exception whose
str() is the given message. -/
inductive UpstreamOutcome where
  | completes
  | raises (msg : String)
  deriving DecidableEq, Repr

/-- Observable behaviour of one upstream streaming call: the fragments the
generator obtains from the iterator, in order, before the stream either
completes or raises.  A call that raises before yielding anything has an
empty fragment list. -/
structure UpstreamBehaviour where
  fragments : List Fragment
  outcome : UpstreamOutcome
  deriving DecidableEq, Repr

/-- The text payloads yielded by the for-loop of stream_gemini_response:
one text event per fragment whose .text is truthy (non-empty), in
iteration order. -/
def textEvents (b : UpstreamBehaviour) : List Event :=
  b.fragments.filterMap fun chunk =>
    if chunk.text ≠ "" then some (Event.text chunk.text) else none

/-- The single terminal payload: the done event yielded after the loop
when the upstream stream completes, or the error event yielded by the
except branch, whose message is 'Backend streaming error: ' + str(e). -/
def terminalEvent : UpstreamOutcome → Event
  | UpstreamOutcome.completes => Event.done
  | UpstreamOutcome.raises e => Event.error ("Backend streaming error: " ++ e)

/-- The JSON payloads yielded by stream_gemini_response, in order: the
text events of the loop followed by the one terminal event. -/
def streamEvents (b : UpstreamBehaviour) : List Event :=
  textEvents b ++ [terminalEvent b.outcome]

/-- Embedding of stream_gemini_response (src/api/index.py, lines 35-48) as
the finite list of SSE frame strings it yields for a given upstream
behaviour.  new_message is the prompt passed to model.generate_content; it
only determines the upstream behaviour, which is the explicit parameter. -/
def stream_gemini_response (new_message : String) (upstream : UpstreamBehaviour) :
    List String :=
  (upstream.fragments.filterMap fun chunk =>
      if chunk.text ≠ "" then some ("data: " ++ jsonDumps (Event.text chunk.text) ++ "\n\n")
      else none)
    ++ match upstream.outcome with
      | UpstreamOutcome.completes => ["data: " ++ jsonDumps Event.done ++ "\n\n"]
      | UpstreamOutcome.raises e =>
          ["data: " ++ jsonDumps (Event.error ("Backend streaming error: " ++ e)) ++ "\n\n"]

/-- A JSON value, as a request body parses to. -/
inductive Json where
  | null
  | bool (b : Bool)
  | num (n : Int)
  | str (s : String)
  | arr (items : List Json)
  | obj (fields : List (String × Json))

/-- Embedding of the pydantic model ChatRequest (src/api/index.py,
lines 31-33): one required field newMessage of type str. -/
structure ChatRequest where
  newMessage : String
  deriving DecidableEq, Repr

/-- Validation of a request body against ChatRequest, per pydantic: the
body must be a JSON object whose newMessage field is present and is a
string; extra fields are ignored; anything else fails validation. -/
def parseChatRequest : Json → Option ChatRequest
  | Json.obj fields =>
      match fields.lookup "newMessage" with
      | some (Json.str s) => some { newMessage := s }
      | _ => none
  | _ => none

/-- Outcome of one HTTP request to the chat endpoint: either a streaming
response (FastAPI's StreamingResponse with media_type text/event-stream)
whose body is the listed frames, or the 422 validation rejection FastAPI
sends when the body fails to validate, before the handler body runs. -/
inductive HttpResponse where
  | streaming (frames : List String)
  | validationError (status : Nat)
  deriving DecidableEq, Repr

/-- The SSE frames a response delivers: a validation rejection carries no
SSE body. -/
def responseFrames : HttpResponse → List String
  | HttpResponse.streaming fs => fs
  | HttpResponse.validationError _ => []

/-- Embedding of handle_chat_stream (src/api/index.py, lines 50-58)
together with FastAPI's request handling for it: the body is validated
against ChatRequest; on failure FastAPI answers 422 and the handler never
runs, so stream_gemini_response is never called; on success the handler
returns StreamingResponse(stream_gemini_response(request.newMessage), ...). -/
def handle_chat_stream (body : Json) (upstream : UpstreamBehaviour) : HttpResponse :=
  match parseChatRequest body with
  | some request => HttpResponse.streaming (stream_gemini_response request.newMessage upstream)
  | none => HttpResponse.validationError 422

/-- HTTP method of a registered route. -/
inductive Method where
  | get
  | post
  deriving DecidableEq, Repr

/-- The handler functions the two route decorators register. -/
inductive Handler where
  | handle_chat_stream
  | read_root
  deriving DecidableEq, Repr

/-- One registered route of the FastAPI app. -/
structure Route where
  method : Method
  path : String
  handler : Handler
  deriving DecidableEq, Repr

/-- The app's route table, from the decorators @app.post("/api/chat") on
handle_chat_stream and @app.get("/") on read_root. -/
def app_routes : List Route :=
  [⟨Method.post, "/api/chat", Handler.handle_chat_stream⟩,
   ⟨Method.get, "/", Handler.read_root⟩]

/-- The model identifier the relay is constructed with
(src/api/index.py, line 29: genai.GenerativeModel('gemini-2.5-flash')). -/
def model_name : String := "gemini-2.5-flash"

/-- Embedding of read_root (src/api/index.py, lines 60-62): the JSON
object the health endpoint returns, as its ordered field list. -/
def read_root : List (String × String) :=
  [("status", "FastAPI is running"), ("model", "gemini-2.5-flash")]

/-! Shared lemmas. -/

theorem escapeChar_ne_nil (c : Char) : escapeChar c ≠ [] := by
  unfold escapeChar
  repeat' split
  all_goals simp

theorem escapeList_eq_nil_iff (l : List Char) : escapeList l = [] ↔ l = [] := by
  cases l with
  | nil => simp [escapeList]
  | cons c cs => simp [escapeList, List.append_eq_nil, escapeChar_ne_nil c]

theorem length_pyJsonString (s : String) :
    (pyJsonString s).length = (escapeList s.data).length + 2 := by
  simp [pyJsonString, String.length]

theorem length_sseFrame_text (s : String) :
    (sseFrame (Event.text s)).length = (escapeList s.data).length + 20 := by
  have h1 : ("data: " : String).length = 6 := by decide
  have h2 : ("\x7b\"text\": " : String).length = 9 := by decide
  have h3 : ("\x7d" : String).length = 1 := by decide
  have h4 : ("\n\n" : String).length = 2 := by decide
  simp [sseFrame, jsonDumps, String.length_append, length_pyJsonString, h1, h2, h3, h4]
  omega

theorem length_sseFrame_error (s : String) :
    (sseFrame (Event.error s)).length = (escapeList s.data).length + 21 := by
  have h1 : ("data: " : String).length = 6 := by decide
  have h2 : ("\x7b\"error\": " : String).length = 10 := by decide
  have h3 : ("\x7d" : String).length = 1 := by decide
  have h4 : ("\n\n" : String).length = 2 := by decide
  simp [sseFrame, jsonDumps, String.length_append, length_pyJsonString, h1, h2, h3, h4]
  omega

theorem stream_frames_eq (msg : String) (b : UpstreamBehaviour) :
    stream_gemini_response msg b = (streamEvents b).map sseFrame := by
  cases b with
  | mk frags outcome =>
      cases outcome <;>
        simp [stream_gemini_response, streamEvents, textEvents, terminalEvent, sseFrame,
          List.map_filterMap, apply_ite (Option.map sseFrame)]

theorem mem_textEvents {b : UpstreamBehaviour} {e : Event} (he : e ∈ textEvents b) :
    ∃ c ∈ b.fragments, c.text ≠ "" ∧ e = Event.text c.text := by
  rcases List.mem_filterMap.mp he with ⟨c, hc, hfc⟩
  by_cases h : c.text = ""
  · rw [if_neg (fun hn => hn h)] at hfc
    cases hfc
  · rw [if_pos h] at hfc
    exact ⟨c, hc, h, (Option.some.inj hfc).symm⟩

theorem error_not_mem_textEvents (b : UpstreamBehaviour) (s : String) :
    Event.error s ∉ textEvents b := by
  intro h
  rcases mem_textEvents h with ⟨c, _, _, hc⟩
  cases hc

theorem done_not_mem_textEvents (b : UpstreamBehaviour) :
    Event.done ∉ textEvents b := by
  intro h
  rcases mem_textEvents h with ⟨c, _, _, hc⟩
  cases hc

theorem textEvents_eq_filter_map (b : UpstreamBehaviour) :
    textEvents b
      = (b.fragments.filter fun c => c.text ≠ "").map fun c => Event.text c.text := by
  rw [textEvents]
  induction b.fragments with
  | nil => rfl
  | cons c cs ih =>
      by_cases h : c.text = "" <;>
        simp [List.filterMap_cons, List.filter_cons, h] at ih ⊢ <;>
        exact ih

/-! Claim theorems. -/

/-- Claim C1: for every request message and every upstream behaviour (any
finite fragment list followed by normal completion or a raised exception),
the frames of stream_gemini_response are the SSE framings of its event
sequence, and that event sequence has a last event that is exactly one of
the done event or an error event; the sequence never contains both a done
and an error event, and never ends without one of them. -/
theorem C1_final_event_dichotomy (msg : String) (b : UpstreamBehaviour) :
    stream_gemini_response msg b = (streamEvents b).map sseFrame ∧
    ∃ e, (streamEvents b).getLast? = some e ∧
      ((e = Event.done ∧ ∀ s, Event.error s ∉ streamEvents b) ∨
       ((∃ s, e = Event.error s) ∧ Event.done ∉ streamEvents b)) := by
  refine ⟨stream_frames_eq msg b, terminalEvent b.outcome, ?_, ?_⟩
  · rw [streamEvents, List.getLast?_concat]
  · cases hb : b.outcome with
    | completes =>
        refine Or.inl ⟨rfl, ?_⟩
        intro s hs
        rcases List.mem_append.mp hs with h | h
        · exact error_not_mem_textEvents b s h
        · rw [hb] at h
          simp [terminalEvent] at h
    | raises m =>
        refine Or.inr ⟨⟨"Backend streaming error: " ++ m, rfl⟩, ?_⟩
        intro hd
        rcases List.mem_append.mp hd with h | h
        · exact done_not_mem_textEvents b h
        · rw [hb] at h
          simp [terminalEvent] at h

/-- Claim C2: the events before the terminal one are exactly the text
events of the upstream fragments with non-empty text, in upstream order:
no reordering, duplication or permutation, and every text event comes
before the terminal done or error event. -/
theorem C2_text_order_preserved (b : UpstreamBehaviour) :
    (streamEvents b).dropLast
      = (b.fragments.filter fun c => c.text ≠ "").map fun c => Event.text c.text := by
  rw [streamEvents, List.dropLast_concat, textEvents_eq_filter_map]

/-- Claim C3: a fragment with empty text produces no event: the event
sequence never contains a text event with empty string, the frame list
never contains the frame for an empty text payload, and the number of
text events equals the number of upstream fragments with non-empty text. -/
theorem C3_no_empty_text_events (msg : String) (b : UpstreamBehaviour) :
    Event.text "" ∉ streamEvents b ∧
    "data: \x7b\"text\": \"\"\x7d\n\n" ∉ stream_gemini_response msg b ∧
    ((streamEvents b).filter isTextEvent).length
      = (b.fragments.filter fun c => c.text ≠ "").length := by
  refine ⟨?_, ?_, ?_⟩
  · intro h
    rcases List.mem_append.mp h with h | h
    · rcases mem_textEvents h with ⟨c, _, hne, hc⟩
      exact hne (Event.text.inj hc.symm)
    · cases hb : b.outcome <;> rw [hb] at h <;> simp [terminalEvent] at h
  · intro h
    rw [stream_frames_eq] at h
    rcases List.mem_map.mp h with ⟨e, he, hfe⟩
    have hlen := congrArg String.length hfe
    have hbad : ("data: \x7b\"text\": \"\"\x7d\n\n" : String).length = 20 := by decide
    rcases List.mem_append.mp he with he | he
    · rcases mem_textEvents he with ⟨c, _, hne, rfl⟩
      rw [length_sseFrame_text, hbad] at hlen
      have h0 : (escapeList c.text.data).length = 0 := by omega
      have hdata : c.text.data = [] :=
        (escapeList_eq_nil_iff _).mp (List.length_eq_zero.mp h0)
      exact hne (String.ext (hdata.trans rfl))
    · cases hb : b.outcome with
      | completes =>
          rw [hb] at he
          simp only [terminalEvent, List.mem_singleton] at he
          rw [he] at hfe
          exact absurd hfe (by decide)
      | raises m =>
          rw [hb] at he
          simp only [terminalEvent, List.mem_singleton] at he
          rw [he, length_sseFrame_error, hbad] at hlen
          omega
  · rw [streamEvents, List.filter_append, textEvents_eq_filter_map, List.filter_map]
    cases hb : b.outcome <;>
      simp [terminalEvent, isTextEvent, Function.comp]

/-- Claim C9: if the upstream stream raises after yielding some fragments,
the text events for the non-empty fragments consumed before the exception
are still emitted, in order, followed by exactly one terminal error event;
nothing follows the error event. -/
theorem C9_partial_output_then_error (b : UpstreamBehaviour) (e : String)
    (h : b.outcome = UpstreamOutcome.raises e) :
    streamEvents b
      = ((b.fragments.filter fun c => c.text ≠ "").map fun c => Event.text c.text)
          ++ [Event.error ("Backend streaming error: " ++ e)] := by
  rw [streamEvents, textEvents_eq_filter_map, h]
  rfl

/-- Witness for C9 at a concrete behaviour: two fragments "Hi" and ""
consumed, then the upstream raises with str(e) = "boom". -/
theorem C9_partial_output_then_error_witness :
    streamEvents ⟨[⟨"Hi"⟩, ⟨""⟩], UpstreamOutcome.raises "boom"⟩
      = [Event.text "Hi", Event.error "Backend streaming error: boom"] := by
  have h := C9_partial_output_then_error
    ⟨[⟨"Hi"⟩, ⟨""⟩], UpstreamOutcome.raises "boom"⟩ "boom" rfl
  exact h.trans (by decide)

/-- Claim C10: text events carry the upstream fragments' text verbatim:
the sequence of strings carried by the text events equals the sequence of
texts of the non-empty upstream fragments, character for character, one
event per such fragment, with no transformation, merging or splitting. -/
theorem C10_verbatim_text (b : UpstreamBehaviour) :
    (streamEvents b).filterMap eventText
      = (b.fragments.filter fun c => c.text ≠ "").map Fragment.text := by
  rw [streamEvents, List.filterMap_append, textEvents_eq_filter_map, List.filterMap_map]
  have hmap : ∀ l : List Fragment,
      l.filterMap (eventText ∘ fun c => Event.text c.text) = l.map Fragment.text := by
    intro l
    induction l with
    | nil => rfl
    | cons c cs ih => simp [List.filterMap_cons, eventText, Function.comp, ih]
  cases hb : b.outcome <;>
    simp [terminalEvent, eventText, hmap]

/-- Claim C4, counterexample to the exact-frame part: when the upstream
raises TimeoutError("upstream down") before yielding any fragment, the
stream is not the single frame data:\x7b"error":"Backend streaming error:
upstream down"\x7d claimed by the spec (neither in that compact form nor
with the SSE framing added), because json.dumps's default separators put a
space after "data:" and after the colon inside the JSON object. -/
theorem C4_exact_frame_counterexample :
    stream_gemini_response "hello" ⟨[], UpstreamOutcome.raises "upstream down"⟩
        ≠ ["data:\x7b\"error\":\"Backend streaming error: upstream down\"\x7d"] ∧
    stream_gemini_response "hello" ⟨[], UpstreamOutcome.raises "upstream down"⟩
        ≠ ["data: \x7b\"error\":\"Backend streaming error: upstream down\"\x7d\n\n"] := by
  constructor <;> decide

/-- Claim C4 as amended: if the upstream raises before yielding any
fragment, the event sequence is exactly one error event carrying
"Backend streaming error: " followed by the exception's description, with
no text event and no done event; for the scenario with str(e) =
"upstream down" the stream is exactly the single frame
data: \x7b"error": "Backend streaming error: upstream down"\x7d followed by the
blank line, json.dumps's separators putting a space after each colon. -/
theorem C4_error_before_first_fragment (msg e : String) :
    streamEvents ⟨[], UpstreamOutcome.raises e⟩
        = [Event.error ("Backend streaming error: " ++ e)] ∧
    stream_gemini_response msg ⟨[], UpstreamOutcome.raises e⟩
        = [sseFrame (Event.error ("Backend streaming error: " ++ e))] ∧
    stream_gemini_response "hello" ⟨[], UpstreamOutcome.raises "upstream down"⟩
        = ["data: \x7b\"error\": \"Backend streaming error: upstream down\"\x7d\n\n"] := by
  refine ⟨rfl, rfl, by decide⟩

/-- Claim C5, counterexample to the byte-exact part: for the request
"hello" with upstream yielding "Hi" then " there" then completing, the
emitted frames are not byte-identical to the spec's
data:\x7b"text":"Hi"\x7d, data:\x7b"text":" there"\x7d, data:\x7b"done":true\x7d
(neither in that compact form nor with the SSE framing added), because
json.dumps's default separators put a space after "data:" and after each
colon. -/
theorem C5_exact_frames_counterexample :
    stream_gemini_response "hello" ⟨[⟨"Hi"⟩, ⟨" there"⟩], UpstreamOutcome.completes⟩
        ≠ ["data:\x7b\"text\":\"Hi\"\x7d", "data:\x7b\"text\":\" there\"\x7d",
           "data:\x7b\"done\":true\x7d"] ∧
    stream_gemini_response "hello" ⟨[⟨"Hi"⟩, ⟨" there"⟩], UpstreamOutcome.completes⟩
        ≠ ["data: \x7b\"text\":\"Hi\"\x7d\n\n", "data: \x7b\"text\":\" there\"\x7d\n\n",
           "data: \x7b\"done\":true\x7d\n\n"] := by
  constructor <;> decide

/-- Claim C5 as amended: for the request "hello" with the upstream
yielding "Hi" then " there" then completing normally, the response body is
exactly the three SSE frames for the payloads \x7b"text": "Hi"\x7d,
\x7b"text": " there"\x7d and \x7b"done": true\x7d, each frame being the bytes
"data: " ++ json.dumps(payload) ++ "\n\n" with json.dumps's default
separators, which put a space after each colon. -/
theorem C5_scenario_frames :
    stream_gemini_response "hello" ⟨[⟨"Hi"⟩, ⟨" there"⟩], UpstreamOutcome.completes⟩
      = ["data: \x7b\"text\": \"Hi\"\x7d\n\n", "data: \x7b\"text\": \" there\"\x7d\n\n",
         "data: \x7b\"done\": true\x7d\n\n"] := by
  decide

/-- Claim C6, counterexample: no route of the app is registered at the
path "/chat"; the streaming endpoint's decorator registers "/api/chat". -/
theorem C6_path_counterexample : "/chat" ∉ app_routes.map Route.path := by
  decide

/-- Claim C6 as amended: the relay's streaming endpoint is registered at
path "/api/chat" (not "/chat") with the POST method, reaching
handle_chat_stream, and its body validates as a JSON object with the one
required message-string field newMessage. -/
theorem C6_chat_route (s : String) :
    (⟨Method.post, "/api/chat", Handler.handle_chat_stream⟩ : Route) ∈ app_routes ∧
    parseChatRequest (Json.obj [("newMessage", Json.str s)]) = some ⟨s⟩ := by
  exact ⟨by simp [app_routes], rfl⟩

/-- Claim C7: a request body that fails to validate as a ChatRequest is
rejected with the 422 client-error status before any streaming begins: the
response carries no SSE frame and the handler body, hence
stream_gemini_response, is never run. -/
theorem C7_invalid_body_rejected (body : Json) (b : UpstreamBehaviour)
    (h : parseChatRequest body = none) :
    handle_chat_stream body b = HttpResponse.validationError 422 ∧
    responseFrames (handle_chat_stream body b) = [] := by
  simp [handle_chat_stream, h, responseFrames]

/-- Witness for C7 at a concrete malformed body: the empty JSON object,
which is missing the required newMessage field. -/
theorem C7_invalid_body_rejected_witness :
    handle_chat_stream (Json.obj []) ⟨[⟨"Hi"⟩], UpstreamOutcome.completes⟩
        = HttpResponse.validationError 422 ∧
    responseFrames
        (handle_chat_stream (Json.obj []) ⟨[⟨"Hi"⟩], UpstreamOutcome.completes⟩) = [] :=
  C7_invalid_body_rejected (Json.obj []) ⟨[⟨"Hi"⟩], UpstreamOutcome.completes⟩ rfl

/-- Claim C8: the health endpoint GET / is registered to read_root, which
always returns the JSON object with status "FastAPI is running" and model
"gemini-2.5-flash", whose model field equals the model identifier the
relay was constructed with on line 29. -/
theorem C8_health_endpoint :
    read_root = [("status", "FastAPI is running"), ("model", "gemini-2.5-flash")] ∧
    read_root.lookup "model" = some model_name ∧
    (⟨Method.get, "/", Handler.read_root⟩ : Route) ∈ app_routes := by
  refine ⟨rfl, rfl, by simp [app_routes]⟩

end ChattyBot
